import Mathlib

/-!
Verification of the cgo build-orchestration engine (`src/lib.rs`) against its
natural-language specification.

The engine is embedded shallowly:
* the `Build` configuration struct and its fluent setters become a Lean
  structure and pure update functions;
* environment access (`std::env::var`) becomes lookup in an explicit
  association list `List (String × String)`;
* the spawned child process (`cmd.output()`) becomes an oracle parameter of
  type `Except String ProcessOutput`: `Except.error e` models a spawn failure
  whose underlying error displays as `e`, `Except.ok po` models a process that
  ran and produced exit status / stdout / stderr `po`;
* the `println!` cargo-metadata side effects become an explicitly returned
  list of emitted directive lines, in emission order;
* the host-platform compile-time condition `cfg!(windows)` becomes a `Bool`
  parameter `win`.
-/

/-- Build mode (`enum BuildMode`, lib.rs lines 243-256): `CArchive` or
`CShared`, with `CArchive` the `#[default]`. -/
inductive BuildMode where
  | CArchive
  | CShared
deriving DecidableEq, Repr

/-- `Display for BuildMode` (lib.rs lines 258-265): `c-archive` / `c-shared`. -/
def BuildMode.toString : BuildMode → String
  | .CArchive => "c-archive"
  | .CShared => "c-shared"

/-- The builder struct (`struct Build`, lib.rs lines 38-46). Paths and
OsStrings are modelled as `String`. -/
structure Build where
  build_mode : BuildMode
  cargo_metadata : Bool
  change_dir : Option String
  ldflags : Option String
  out_dir : Option String
  packages : List String
  trimpath : Bool
deriving DecidableEq, Repr

/-- `Build::new` (lib.rs lines 56-66): the default configuration. -/
def Build.new : Build where
  build_mode := .CArchive
  cargo_metadata := true
  change_dir := none
  ldflags := none
  out_dir := none
  packages := []
  trimpath := false

/-- Setter `Build::build_mode` (lib.rs lines 73-76). The Rust setters mutate
`&mut self` and return it; here each setter is the pure state transformer the
mutation performs. -/
def Build.set_build_mode (b : Build) (build_mode : BuildMode) : Build :=
  { b with build_mode := build_mode }

/-- Setter `Build::cargo_metadata` (lib.rs lines 81-84). -/
def Build.set_cargo_metadata (b : Build) (cargo_metadata : Bool) : Build :=
  { b with cargo_metadata := cargo_metadata }

/-- Setter `Build::change_dir` (lib.rs lines 88-91). -/
def Build.set_change_dir (b : Build) (dir : String) : Build :=
  { b with change_dir := some dir }

/-- Setter `Build::ldflags` (lib.rs lines 94-97). -/
def Build.set_ldflags (b : Build) (ldflags : String) : Build :=
  { b with ldflags := some ldflags }

/-- Setter `Build::out_dir` (lib.rs lines 102-105). -/
def Build.set_out_dir (b : Build) (out_dir : String) : Build :=
  { b with out_dir := some out_dir }

/-- Setter `Build::package` (lib.rs lines 111-114): appends to the package
list (`self.packages.push(...)`). -/
def Build.package (b : Build) (package : String) : Build :=
  { b with packages := b.packages ++ [package] }

/-- Setter `Build::trimpath` (lib.rs lines 117-120). -/
def Build.set_trimpath (b : Build) (trimpath : Bool) : Build :=
  { b with trimpath := trimpath }

/-- Error kinds (`enum ErrorKind`, lib.rs lines 269-274). -/
inductive ErrorKind where
  | EnvVarNotFound
  | InvalidGOARCH
  | InvalidGOOS
  | ToolExecError
deriving DecidableEq, Repr

/-- `struct Error` (lib.rs lines 278-281): a kind plus a free-form message. -/
structure Error where
  kind : ErrorKind
  message : String
deriving DecidableEq, Repr

/-- `get_env_var` (lib.rs lines 354-361): reads a variable from the
environment snapshot, failing with `EnvVarNotFound` naming the key. -/
def get_env_var (env : List (String × String)) (key : String) : Except Error String :=
  match env.lookup key with
  | some v => .ok v
  | none => .error ⟨.EnvVarNotFound, "could not find environment variable " ++ key⟩

/-- `goarch_from_env` (lib.rs lines 312-332): reads `CARGO_CFG_TARGET_ARCH`
and translates it through the closed architecture table. -/
def goarch_from_env (env : List (String × String)) : Except Error String :=
  match get_env_var env "CARGO_CFG_TARGET_ARCH" with
  | .error e => .error e
  | .ok target_arch =>
    match target_arch with
    | "x86" => .ok "386"
    | "x86_64" => .ok "amd64"
    | "powerpc64" => .ok "ppc64"
    | "aarch64" => .ok "arm64"
    | "mips" => .ok target_arch
    | "mips64" => .ok target_arch
    | "arm" => .ok target_arch
    | _ => .error ⟨.InvalidGOARCH, "unexpected target arch " ++ target_arch⟩

/-- `goos_from_env` (lib.rs lines 334-352): reads `CARGO_CFG_TARGET_OS`
and translates it through the closed OS table. -/
def goos_from_env (env : List (String × String)) : Except Error String :=
  match get_env_var env "CARGO_CFG_TARGET_OS" with
  | .error e => .error e
  | .ok target_os =>
    match target_os with
    | "macos" => .ok "darwin"
    | "windows" => .ok target_os
    | "ios" => .ok target_os
    | "linux" => .ok target_os
    | "android" => .ok target_os
    | "freebsd" => .ok target_os
    | "dragonfly" => .ok target_os
    | "openbsd" => .ok target_os
    | "netbsd" => .ok target_os
    | _ => .error ⟨.InvalidGOOS, "unexpected target os " ++ target_os⟩

/-- The domain of the architecture translation table, as listed in the match
arms of `goarch_from_env`. -/
def goarchDomain : List String :=
  ["x86", "x86_64", "powerpc64", "aarch64", "mips", "mips64", "arm"]

/-- The architecture translation table (host id, foreign id), one row per
match arm of `goarch_from_env`. -/
def goarchTable : List (String × String) :=
  [("x86", "386"), ("x86_64", "amd64"), ("powerpc64", "ppc64"),
   ("aarch64", "arm64"), ("mips", "mips"), ("mips64", "mips64"), ("arm", "arm")]

/-- The domain of the OS translation table, as listed in the match arms of
`goos_from_env`. -/
def goosDomain : List String :=
  ["macos", "windows", "ios", "linux", "android", "freebsd", "dragonfly",
   "openbsd", "netbsd"]

/-- The OS translation table (host id, foreign id), one row per match arm of
`goos_from_env`. -/
def goosTable : List (String × String) :=
  [("macos", "darwin"), ("windows", "windows"), ("ios", "ios"),
   ("linux", "linux"), ("android", "android"), ("freebsd", "freebsd"),
   ("dragonfly", "dragonfly"), ("openbsd", "openbsd"), ("netbsd", "netbsd")]

/-- `Build::format_lib_name` (lib.rs lines 215-236): `lib` + output + an
extension chosen by build mode and the host-platform condition
`cfg!(windows)`, modelled as the `win` flag. -/
def format_lib_name (win : Bool) (mode : BuildMode) (output : String) : String :=
  "lib" ++ output ++
    (match mode with
     | .CArchive => if win then ".lib" else ".a"
     | .CShared => if win then ".dll" else ".so")

/-- The link-directive kind chosen in `try_build` (lib.rs lines 181-184):
`static` for CArchive, `dylib` for CShared. -/
def link_kind : BuildMode → String
  | .CArchive => "static"
  | .CShared => "dylib"

/-- Resolution of the output directory in `try_build` (lib.rs lines 140-143):
the explicitly configured directory if present, otherwise the `OUT_DIR`
environment variable. -/
def resolve_out_dir (b : Build) (env : List (String × String)) : Except Error String :=
  match b.out_dir with
  | some d => .ok d
  | none => get_env_var env "OUT_DIR"

/-- The argument vector built for the `go` command in `try_build`
(lib.rs lines 146-168), mirroring the sequence of `cmd.arg` / `cmd.args`
calls: `build`, then `-C dir` if set, `-ldflags v` if set, `-trimpath` if
enabled, `-buildmode <mode>`, `-o <out_path>`, then each package pushed in
order by the final loop. -/
def go_args (b : Build) (out_path : String) : List String :=
  let cmd := ["build"]
  let cmd := match b.change_dir with
    | some change_dir => cmd ++ ["-C", change_dir]
    | none => cmd
  let cmd := match b.ldflags with
    | some ldflags => cmd ++ ["-ldflags", ldflags]
    | none => cmd
  let cmd := if b.trimpath then cmd ++ ["-trimpath"] else cmd
  let cmd := cmd ++ ["-buildmode", b.build_mode.toString]
  let cmd := cmd ++ ["-o", out_path]
  b.packages.foldl (fun c package => c ++ [package]) cmd

/-- Exit status of the child process. The Rust code uses only
`ExitStatus::success()` and its `Display` rendering, so the model carries
exactly those two observations. -/
structure ExitStatus where
  success : Bool
  display : String
deriving DecidableEq, Repr

/-- `process::Output` of the child: exit status plus captured streams
(already decoded, as `String::from_utf8_lossy` produces them). -/
structure ProcessOutput where
  status : ExitStatus
  stdout : String
  stderr : String
deriving DecidableEq, Repr

/-- Model of Rust's `str::trim` as used on the captured streams: drop
whitespace characters from both ends of the string. -/
def string_trim (s : String) : String :=
  ⟨((s.data.dropWhile Char.isWhitespace).reverse.dropWhile Char.isWhitespace).reverse⟩

/-- The `push_output` closure in `try_build` (lib.rs lines 198-207): appends
`\n=== <stream_name>:\n<trimmed>` to the message when the trimmed stream is
non-empty, and leaves the message unchanged otherwise. -/
def push_output (message : String) (stream_name : String) (s : String) : String :=
  let t := string_trim s
  if t = "" then message
  else message ++ "\n=== " ++ stream_name ++ ":\n" ++ t

/-- The part of `try_build` after the command is assembled
(lib.rs lines 170-213): match on the spawn result; on spawn failure return a
`ToolExecError` wrapping the spawn error's description; otherwise emit the
two cargo directives when `cargo_metadata` is set, then return `Ok` on a
successful exit status, and otherwise a `ToolExecError` whose message is the
header plus the non-empty trimmed streams. The first component of the result
is the list of emitted directive lines, in order. -/
def run_phase (b : Build) (output : String) (out_dir : String)
    (run : Except String ProcessOutput) : List String × Except Error Unit :=
  match run with
  | .error err =>
    ([], .error ⟨.ToolExecError, "failed to execute go command: " ++ err⟩)
  | .ok build_output =>
    let emitted :=
      if b.cargo_metadata then
        ["cargo:rustc-link-lib=" ++ link_kind b.build_mode ++ "=" ++ output,
         "cargo:rustc-link-search=native=" ++ out_dir]
      else []
    if build_output.status.success then
      (emitted, .ok ())
    else
      let message := "failed to build Go library (" ++ build_output.status.display
        ++ "). Build output:"
      let message := push_output message "stdout" build_output.stdout
      let message := push_output message "stderr" build_output.stderr
      (emitted, .error ⟨.ToolExecError, message⟩)

/-- `Build::try_build` (lib.rs lines 135-213): translate the target OS, then
the target architecture; format the library name; resolve the output
directory; assemble the argument vector; then run the process phase. `win`
is the host `cfg!(windows)` condition, `env` the environment snapshot, and
`run` the oracle for the spawned process's outcome. -/
def try_build (win : Bool) (b : Build) (output : String)
    (env : List (String × String)) (run : Except String ProcessOutput) :
    List String × Except Error Unit :=
  match goos_from_env env with
  | .error e => ([], .error e)
  | .ok _goos =>
    match goarch_from_env env with
    | .error e => ([], .error e)
    | .ok _goarch =>
      let lib_name := format_lib_name win b.build_mode output
      match resolve_out_dir b env with
      | .error e => ([], .error e)
      | .ok out_dir =>
        let out_path := out_dir ++ "/" ++ lib_name
        let _args := go_args b out_path
        run_phase b output out_dir run

/-- Claim C9: `Build::new()` yields exactly the documented defaults (CArchive
mode, cargo_metadata true, no change_dir, no ldflags, no explicit out_dir,
empty package list, trimpath false), and every setter stores only its own
value and leaves every other field unchanged; `package` appends one element
at the end of the package list preserving prior insertion order. Every setter
is a total function, so no setter can fail. -/
theorem build_new_defaults_and_setters_frame :
    Build.new = { build_mode := .CArchive, cargo_metadata := true,
                  change_dir := none, ldflags := none, out_dir := none,
                  packages := [], trimpath := false } ∧
    (∀ b m, Build.set_build_mode b m = { b with build_mode := m }) ∧
    (∀ b v, Build.set_cargo_metadata b v = { b with cargo_metadata := v }) ∧
    (∀ b d, Build.set_change_dir b d = { b with change_dir := some d }) ∧
    (∀ b l, Build.set_ldflags b l = { b with ldflags := some l }) ∧
    (∀ b d, Build.set_out_dir b d = { b with out_dir := some d }) ∧
    (∀ b p, Build.package b p = { b with packages := b.packages ++ [p] }) ∧
    (∀ b v, Build.set_trimpath b v = { b with trimpath := v }) := by
  refine ⟨rfl, ?_, ?_, ?_, ?_, ?_, ?_, ?_⟩ <;> intro b x <;> rfl

/-- Claim C7: the library name formatter always produces `lib` + output + an
extension, and the extension is determined by (build mode, host OS):
`.a` for CArchive off Windows, `.lib` for CArchive on Windows, `.dll` for
CShared on Windows, `.so` for CShared off Windows (including macOS hosts,
which are non-Windows). -/
theorem format_lib_name_spec :
    format_lib_name false .CArchive "example" = "libexample.a" ∧
    format_lib_name true .CArchive "example" = "libexample.lib" ∧
    format_lib_name true .CShared "example" = "libexample.dll" ∧
    format_lib_name false .CShared "example" = "libexample.so" ∧
    (∀ win mode output, ∃ ext, ext ∈ [".a", ".lib", ".dll", ".so"] ∧
      format_lib_name win mode output = "lib" ++ output ++ ext) := by
  refine ⟨rfl, rfl, rfl, rfl, ?_⟩
  intro win mode output
  cases mode <;> cases win
  · exact ⟨".a", by simp, rfl⟩
  · exact ⟨".lib", by simp, rfl⟩
  · exact ⟨".so", by simp, rfl⟩
  · exact ⟨".dll", by simp, rfl⟩

/-! ### Helper lemmas about the target translators -/

theorem goarch_from_env_absent (env : List (String × String))
    (h : env.lookup "CARGO_CFG_TARGET_ARCH" = none) :
    goarch_from_env env =
      .error ⟨.EnvVarNotFound,
              "could not find environment variable " ++ "CARGO_CFG_TARGET_ARCH"⟩ := by
  simp only [goarch_from_env, get_env_var, h]

theorem goarch_from_env_bad (env : List (String × String)) (s : String)
    (h : env.lookup "CARGO_CFG_TARGET_ARCH" = some s) (hs : s ∉ goarchDomain) :
    goarch_from_env env =
      .error ⟨.InvalidGOARCH, "unexpected target arch " ++ s⟩ := by
  simp only [goarchDomain, List.mem_cons, List.not_mem_nil, or_false, not_or] at hs
  obtain ⟨h1, h2, h3, h4, h5, h6, h7⟩ := hs
  simp only [goarch_from_env, get_env_var, h]

theorem goos_from_env_absent (env : List (String × String))
    (h : env.lookup "CARGO_CFG_TARGET_OS" = none) :
    goos_from_env env =
      .error ⟨.EnvVarNotFound,
              "could not find environment variable " ++ "CARGO_CFG_TARGET_OS"⟩ := by
  simp only [goos_from_env, get_env_var, h]

theorem goos_from_env_bad (env : List (String × String)) (s : String)
    (h : env.lookup "CARGO_CFG_TARGET_OS" = some s) (hs : s ∉ goosDomain) :
    goos_from_env env =
      .error ⟨.InvalidGOOS, "unexpected target os " ++ s⟩ := by
  simp only [goosDomain, List.mem_cons, List.not_mem_nil, or_false, not_or] at hs
  obtain ⟨h1, h2, h3, h4, h5, h6, h7, h8, h9⟩ := hs
  simp only [goos_from_env, get_env_var, h]

theorem goarch_from_env_mem_ok (env : List (String × String)) (s : String)
    (h : env.lookup "CARGO_CFG_TARGET_ARCH" = some s) (hs : s ∈ goarchDomain) :
    ∃ g, goarch_from_env env = .ok g := by
  fin_cases hs
  · exact ⟨"386", by simp only [goarch_from_env, get_env_var, h]⟩
  · exact ⟨"amd64", by simp only [goarch_from_env, get_env_var, h]⟩
  · exact ⟨"ppc64", by simp only [goarch_from_env, get_env_var, h]⟩
  · exact ⟨"arm64", by simp only [goarch_from_env, get_env_var, h]⟩
  · exact ⟨"mips", by simp only [goarch_from_env, get_env_var, h]⟩
  · exact ⟨"mips64", by simp only [goarch_from_env, get_env_var, h]⟩
  · exact ⟨"arm", by simp only [goarch_from_env, get_env_var, h]⟩

theorem goos_from_env_mem_ok (env : List (String × String)) (s : String)
    (h : env.lookup "CARGO_CFG_TARGET_OS" = some s) (hs : s ∈ goosDomain) :
    ∃ g, goos_from_env env = .ok g := by
  fin_cases hs
  · exact ⟨"darwin", by simp only [goos_from_env, get_env_var, h]⟩
  · exact ⟨"windows", by simp only [goos_from_env, get_env_var, h]⟩
  · exact ⟨"ios", by simp only [goos_from_env, get_env_var, h]⟩
  · exact ⟨"linux", by simp only [goos_from_env, get_env_var, h]⟩
  · exact ⟨"android", by simp only [goos_from_env, get_env_var, h]⟩
  · exact ⟨"freebsd", by simp only [goos_from_env, get_env_var, h]⟩
  · exact ⟨"dragonfly", by simp only [goos_from_env, get_env_var, h]⟩
  · exact ⟨"openbsd", by simp only [goos_from_env, get_env_var, h]⟩
  · exact ⟨"netbsd", by simp only [goos_from_env, get_env_var, h]⟩

theorem goos_from_env_ok_mem (env : List (String × String)) (g : String)
    (h : goos_from_env env = .ok g) :
    ∃ s, env.lookup "CARGO_CFG_TARGET_OS" = some s ∧ s ∈ goosDomain := by
  cases hl : env.lookup "CARGO_CFG_TARGET_OS" with
  | none =>
    rw [goos_from_env_absent env hl] at h
    exact Except.noConfusion h
  | some s =>
    refine ⟨s, rfl, ?_⟩
    by_contra hs
    rw [goos_from_env_bad env s hl hs] at h
    exact Except.noConfusion h

theorem goarch_from_env_ok_mem (env : List (String × String)) (g : String)
    (h : goarch_from_env env = .ok g) :
    ∃ s, env.lookup "CARGO_CFG_TARGET_ARCH" = some s ∧ s ∈ goarchDomain := by
  cases hl : env.lookup "CARGO_CFG_TARGET_ARCH" with
  | none =>
    rw [goarch_from_env_absent env hl] at h
    exact Except.noConfusion h
  | some s =>
    refine ⟨s, rfl, ?_⟩
    by_contra hs
    rw [goarch_from_env_bad env s hl hs] at h
    exact Except.noConfusion h

theorem goos_from_env_error_kind (env : List (String × String)) (e : Error)
    (h : goos_from_env env = .error e) :
    e.kind = .EnvVarNotFound ∨ e.kind = .InvalidGOOS := by
  cases hl : env.lookup "CARGO_CFG_TARGET_OS" with
  | none =>
    rw [goos_from_env_absent env hl] at h
    injection h with h2
    left
    rw [← h2]
  | some s =>
    by_cases hs : s ∈ goosDomain
    · obtain ⟨g, hg⟩ := goos_from_env_mem_ok env s hl hs
      rw [hg] at h
      exact Except.noConfusion h
    · rw [goos_from_env_bad env s hl hs] at h
      injection h with h2
      right
      rw [← h2]

theorem goarch_from_env_error_kind (env : List (String × String)) (e : Error)
    (h : goarch_from_env env = .error e) :
    e.kind = .EnvVarNotFound ∨ e.kind = .InvalidGOARCH := by
  cases hl : env.lookup "CARGO_CFG_TARGET_ARCH" with
  | none =>
    rw [goarch_from_env_absent env hl] at h
    injection h with h2
    left
    rw [← h2]
  | some s =>
    by_cases hs : s ∈ goarchDomain
    · obtain ⟨g, hg⟩ := goarch_from_env_mem_ok env s hl hs
      rw [hg] at h
      exact Except.noConfusion h
    · rw [goarch_from_env_bad env s hl hs] at h
      injection h with h2
      right
      rw [← h2]

/-- Claim C3: the translators return exactly the tabulated values (each row of
`goarchTable` / `goosTable` corresponds to one match arm of the source), fail
with `InvalidGOARCH` / `InvalidGOOS` on any identifier outside the table
domain, and in both failure cases the message is the fixed text followed by
the unrecognized input verbatim. -/
theorem translation_tables_exact :
    (∀ p ∈ goarchTable, ∀ env : List (String × String),
      env.lookup "CARGO_CFG_TARGET_ARCH" = some p.1 →
      goarch_from_env env = .ok p.2) ∧
    (∀ (env : List (String × String)) (s : String),
      env.lookup "CARGO_CFG_TARGET_ARCH" = some s → s ∉ goarchDomain →
      goarch_from_env env = .error ⟨.InvalidGOARCH, "unexpected target arch " ++ s⟩) ∧
    (∀ p ∈ goosTable, ∀ env : List (String × String),
      env.lookup "CARGO_CFG_TARGET_OS" = some p.1 →
      goos_from_env env = .ok p.2) ∧
    (∀ (env : List (String × String)) (s : String),
      env.lookup "CARGO_CFG_TARGET_OS" = some s → s ∉ goosDomain →
      goos_from_env env = .error ⟨.InvalidGOOS, "unexpected target os " ++ s⟩) := by
  refine ⟨?_, ?_, ?_, ?_⟩
  · intro p hp env h
    fin_cases hp <;> simp only [goarch_from_env, get_env_var, h]
  · exact goarch_from_env_bad
  · intro p hp env h
    fin_cases hp <;> simp only [goos_from_env, get_env_var, h]
  · exact goos_from_env_bad

/-- Witness for C3: concrete instances of each conjunct, a renamed row, an
identity row, and unrecognized inputs whose messages embed them verbatim. -/
theorem translation_tables_exact_witness :
    goarch_from_env [("CARGO_CFG_TARGET_ARCH", "x86")] = .ok "386" ∧
    goarch_from_env [("CARGO_CFG_TARGET_ARCH", "riscv64")] =
      .error ⟨.InvalidGOARCH, "unexpected target arch " ++ "riscv64"⟩ ∧
    goos_from_env [("CARGO_CFG_TARGET_OS", "macos")] = .ok "darwin" ∧
    goos_from_env [("CARGO_CFG_TARGET_OS", "plan9")] =
      .error ⟨.InvalidGOOS, "unexpected target os " ++ "plan9"⟩ := by
  refine ⟨?_, ?_, ?_, ?_⟩
  · exact translation_tables_exact.1 ("x86", "386") (by decide) _ (by decide)
  · exact translation_tables_exact.2.1 _ "riscv64" (by decide) (by decide)
  · exact translation_tables_exact.2.2.1 ("macos", "darwin") (by decide) _ (by decide)
  · exact translation_tables_exact.2.2.2 _ "plan9" (by decide) (by decide)

/-! ### Helper lemmas about `try_build` and `run_phase` -/

theorem try_build_goos_error (win : Bool) (b : Build) (output : String)
    (env : List (String × String)) (run : Except String ProcessOutput) (e : Error)
    (h : goos_from_env env = .error e) :
    try_build win b output env run = ([], .error e) := by
  simp only [try_build, h]

theorem try_build_goarch_error (win : Bool) (b : Build) (output : String)
    (env : List (String × String)) (run : Except String ProcessOutput)
    (g : String) (e : Error)
    (hg : goos_from_env env = .ok g) (ha : goarch_from_env env = .error e) :
    try_build win b output env run = ([], .error e) := by
  simp only [try_build, hg, ha]

theorem try_build_out_dir_error (win : Bool) (b : Build) (output : String)
    (env : List (String × String)) (run : Except String ProcessOutput)
    (g a : String) (e : Error)
    (hg : goos_from_env env = .ok g) (ha : goarch_from_env env = .ok a)
    (hd : resolve_out_dir b env = .error e) :
    try_build win b output env run = ([], .error e) := by
  simp only [try_build, hg, ha, hd]

theorem try_build_env_ok (win : Bool) (b : Build) (output : String)
    (env : List (String × String)) (run : Except String ProcessOutput)
    (g a d : String)
    (hg : goos_from_env env = .ok g) (ha : goarch_from_env env = .ok a)
    (hd : resolve_out_dir b env = .ok d) :
    try_build win b output env run = run_phase b output d run := by
  simp only [try_build, hg, ha, hd]

theorem run_phase_spawn_error (b : Build) (output d err : String) :
    run_phase b output d (.error err) =
      ([], .error ⟨.ToolExecError, "failed to execute go command: " ++ err⟩) := rfl

theorem run_phase_ok_fst (b : Build) (output d : String) (po : ProcessOutput) :
    (run_phase b output d (.ok po)).1 =
      if b.cargo_metadata then
        ["cargo:rustc-link-lib=" ++ link_kind b.build_mode ++ "=" ++ output,
         "cargo:rustc-link-search=native=" ++ d]
      else [] := by
  simp only [run_phase]
  cases hb : po.status.success <;> simp [hb]

theorem foldl_push_eq_append (ps : List String) (acc : List String) :
    ps.foldl (fun c package => c ++ [package]) acc = acc ++ ps := by
  induction ps generalizing acc with
  | nil => simp
  | cons p ps ih => simp [ih]

/-- Claim C5: the argument vector is, in strict order, the subcommand
`build`; the `-C` flag and directory (first two tokens after the subcommand,
whatever else is set) when `change_dir` is set; `-ldflags` and the flag
string when set; `-trimpath` when enabled; `-buildmode` with `c-archive` or
`c-shared`; `-o` with the output path; and the packages, each a separate
argument, in insertion order at the end. -/
theorem go_args_strict_order :
    (∀ b out_path, go_args b out_path =
      ["build"]
      ++ (match b.change_dir with | some d => ["-C", d] | none => [])
      ++ (match b.ldflags with | some l => ["-ldflags", l] | none => [])
      ++ (if b.trimpath then ["-trimpath"] else [])
      ++ ["-buildmode", b.build_mode.toString]
      ++ ["-o", out_path]
      ++ b.packages) ∧
    (∀ b out_path d, b.change_dir = some d →
      (go_args b out_path).take 3 = ["build", "-C", d]) := by
  have key : ∀ b out_path, go_args b out_path =
      ["build"]
      ++ (match b.change_dir with | some d => ["-C", d] | none => [])
      ++ (match b.ldflags with | some l => ["-ldflags", l] | none => [])
      ++ (if b.trimpath then ["-trimpath"] else [])
      ++ ["-buildmode", b.build_mode.toString]
      ++ ["-o", out_path]
      ++ b.packages := by
    intro b out_path
    simp only [go_args, foldl_push_eq_append]
    rcases b.change_dir with _ | d <;> rcases b.ldflags with _ | l <;>
      cases b.trimpath <;> simp
  refine ⟨key, ?_⟩
  intro b out_path d h
  rw [key, h]
  simp

/-- A sample configuration, mirroring the integration test build script
(`cgo-test/build.rs`), used to witness the argument-order claim. -/
def exampleCfg : Build where
  build_mode := .CShared
  cargo_metadata := true
  change_dir := some "./tests/example"
  ldflags := some "-s -w"
  out_dir := none
  packages := ["main.go"]
  trimpath := true

/-- Witness for C5: the sample configuration produces exactly the expected
token sequence, and the directory-change flag occupies the two slots right
after the subcommand. -/
theorem go_args_strict_order_witness :
    go_args exampleCfg "/tmp/out/libexample.so" =
      ["build", "-C", "./tests/example", "-ldflags", "-s -w", "-trimpath",
       "-buildmode", "c-shared", "-o", "/tmp/out/libexample.so", "main.go"] ∧
    (go_args exampleCfg "/tmp/out/libexample.so").take 3 =
      ["build", "-C", "./tests/example"] := by
  constructor
  · rw [go_args_strict_order.1]
    decide
  · exact go_args_strict_order.2 exampleCfg "/tmp/out/libexample.so"
      "./tests/example" rfl

/-- Claim C8: when both the target OS and the target architecture are
unrecognized, `try_build` reports exactly one error — nothing is emitted and
the single returned error's kind is one of `InvalidGOARCH` / `InvalidGOOS`
(translation short-circuits on the first failure). -/
theorem double_unrecognized_single_error :
    ∀ (win : Bool) (b : Build) (output : String) (env : List (String × String))
      (run : Except String ProcessOutput) (so sa : String),
      env.lookup "CARGO_CFG_TARGET_OS" = some so → so ∉ goosDomain →
      env.lookup "CARGO_CFG_TARGET_ARCH" = some sa → sa ∉ goarchDomain →
      (try_build win b output env run).1 = [] ∧
      ∃ e, (try_build win b output env run).2 = .error e ∧
        (e.kind = .InvalidGOARCH ∨ e.kind = .InvalidGOOS) := by
  intro win b output env run so sa hso hnso _hsa _hnsa
  rw [try_build_goos_error win b output env run _ (goos_from_env_bad env so hso hnso)]
  exact ⟨rfl, ⟨.InvalidGOOS, "unexpected target os " ++ so⟩, rfl, Or.inr rfl⟩

/-- Witness for C8: with both identifiers unrecognized, the result is a
single InvalidGOOS/InvalidGOARCH error and no emitted directives. -/
theorem double_unrecognized_single_error_witness :
    (try_build false Build.new "example"
        [("CARGO_CFG_TARGET_OS", "plan9"), ("CARGO_CFG_TARGET_ARCH", "riscv64")]
        (.ok ⟨⟨true, "exit status: 0"⟩, "", ""⟩)).1 = [] ∧
    ∃ e, (try_build false Build.new "example"
        [("CARGO_CFG_TARGET_OS", "plan9"), ("CARGO_CFG_TARGET_ARCH", "riscv64")]
        (.ok ⟨⟨true, "exit status: 0"⟩, "", ""⟩)).2 = .error e ∧
        (e.kind = .InvalidGOARCH ∨ e.kind = .InvalidGOOS) :=
  double_unrecognized_single_error false Build.new "example" _ _ "plan9" "riscv64"
    (by decide) (by decide) (by decide) (by decide)

/-- Claim C10: the target OS is translated before the target architecture:
with both identifiers unrecognized the reported error is `InvalidGOOS`, never
`InvalidGOARCH`; and an `InvalidGOARCH` error is only ever reported when the
target OS value was present and recognized. -/
theorem goos_translated_before_goarch :
    (∀ (win : Bool) (b : Build) (output : String) (env : List (String × String))
       (run : Except String ProcessOutput) (so sa : String),
      env.lookup "CARGO_CFG_TARGET_OS" = some so → so ∉ goosDomain →
      env.lookup "CARGO_CFG_TARGET_ARCH" = some sa → sa ∉ goarchDomain →
      (try_build win b output env run).2 =
        .error ⟨.InvalidGOOS, "unexpected target os " ++ so⟩) ∧
    (∀ (win : Bool) (b : Build) (output : String) (env : List (String × String))
       (run : Except String ProcessOutput) (e : Error),
      (try_build win b output env run).2 = .error e →
      e.kind = .InvalidGOARCH →
      ∃ so, env.lookup "CARGO_CFG_TARGET_OS" = some so ∧ so ∈ goosDomain) := by
  constructor
  · intro win b output env run so _sa hso hnso _hsa _hnsa
    rw [try_build_goos_error win b output env run _
      (goos_from_env_bad env so hso hnso)]
  · intro win b output env run e he hk
    cases hg : goos_from_env env with
    | error e2 =>
      rw [try_build_goos_error win b output env run e2 hg] at he
      replace he : Except.error e2 = Except.error e := he
      have hee : e2 = e := Except.error.inj he
      rcases goos_from_env_error_kind env e2 hg with h2 | h2 <;>
        rw [hee, hk] at h2 <;> exact absurd h2 (by decide)
    | ok g => exact goos_from_env_ok_mem env g hg

/-- Witness for C10: the double-unrecognized environment yields exactly the
InvalidGOOS error naming the unrecognized OS. -/
theorem goos_translated_before_goarch_witness :
    (try_build true Build.new "example"
        [("CARGO_CFG_TARGET_OS", "plan9"), ("CARGO_CFG_TARGET_ARCH", "riscv64")]
        (.ok ⟨⟨true, "exit status: 0"⟩, "", ""⟩)).2 =
      .error ⟨.InvalidGOOS, "unexpected target os " ++ "plan9"⟩ :=
  goos_translated_before_goarch.1 true Build.new "example" _ _ "plan9" "riscv64"
    (by decide) (by decide) (by decide) (by decide)

/-! ### Concrete inputs shared by several witnesses and counterexamples -/

/-- A well-formed environment snapshot: Linux x86_64 host target with cargo's
default output directory set. -/
def envOk : List (String × String) :=
  [("CARGO_CFG_TARGET_OS", "linux"), ("CARGO_CFG_TARGET_ARCH", "x86_64"),
   ("OUT_DIR", "/tmp/out")]

/-- A successful process outcome. -/
def okRun : ProcessOutput := ⟨⟨true, "exit status: 0"⟩, "", ""⟩

/-- A failed process outcome: nonzero exit, empty stdout, diagnostics on
stderr. -/
def failedRun : ProcessOutput := ⟨⟨false, "exit status: 1"⟩, "", "go: build error"⟩

/-- A CShared configuration with an explicit output directory `/tmp/out`,
matching the spec's metadata example. -/
def cSharedCfg : Build :=
  { Build.new with build_mode := .CShared, out_dir := some "/tmp/out" }

/-- Counterexample to C1 as stated: with `cargo_metadata` enabled (the
default) and a spawned process that exits with nonzero status, the two
metadata directives ARE emitted — the code prints them before checking the
exit status (lib.rs lines 180-191). -/
theorem metadata_not_suppressed_on_nonzero_exit :
    failedRun.status.success = false ∧
    (try_build false Build.new "example" envOk (.ok failedRun)).1 =
      ["cargo:rustc-link-lib=static=example",
       "cargo:rustc-link-search=native=/tmp/out"] ∧
    (try_build false Build.new "example" envOk (.ok failedRun)).1 ≠ [] ∧
    (∃ m, (try_build false Build.new "example" envOk (.ok failedRun)).2 =
      .error ⟨.ToolExecError, m⟩) := by
  refine ⟨rfl, rfl, by decide, ⟨_, rfl⟩⟩

/-- Claim C1 (amended): nothing is emitted when the toolchain process fails
to spawn (and on any earlier environment or translation failure), but the
emitted directives are independent of the process's exit status and output:
a run that exits nonzero emits exactly what a successful run emits (the two
directives when `cargo_metadata` is enabled, nothing otherwise), because
emission precedes the success check. -/
theorem no_emission_on_spawn_failure_emission_ignores_exit_status :
    (∀ (win : Bool) (b : Build) (output : String) (env : List (String × String))
       (err : String),
      (try_build win b output env (.error err)).1 = []) ∧
    (∀ (win : Bool) (b : Build) (output : String) (env : List (String × String))
       (po po' : ProcessOutput),
      (try_build win b output env (.ok po)).1 =
        (try_build win b output env (.ok po')).1) := by
  constructor
  · intro win b output env err
    cases hg : goos_from_env env with
    | error e => rw [try_build_goos_error win b output env _ e hg]
    | ok g =>
      cases ha : goarch_from_env env with
      | error e => rw [try_build_goarch_error win b output env _ g e hg ha]
      | ok a =>
        cases hd : resolve_out_dir b env with
        | error e =>
          rw [try_build_out_dir_error win b output env _ g a e hg ha hd]
        | ok d =>
          rw [try_build_env_ok win b output env _ g a d hg ha hd,
              run_phase_spawn_error]
  · intro win b output env po po'
    cases hg : goos_from_env env with
    | error e =>
      rw [try_build_goos_error win b output env _ e hg,
          try_build_goos_error win b output env _ e hg]
    | ok g =>
      cases ha : goarch_from_env env with
      | error e =>
        rw [try_build_goarch_error win b output env _ g e hg ha,
            try_build_goarch_error win b output env _ g e hg ha]
      | ok a =>
        cases hd : resolve_out_dir b env with
        | error e =>
          rw [try_build_out_dir_error win b output env _ g a e hg ha hd,
              try_build_out_dir_error win b output env _ g a e hg ha hd]
        | ok d =>
          rw [try_build_env_ok win b output env _ g a d hg ha hd,
              try_build_env_ok win b output env _ g a d hg ha hd,
              run_phase_ok_fst, run_phase_ok_fst]

/-- Counterexample to C2 as stated: on a successful CShared build with
`cargo_metadata` enabled and out_dir `/tmp/out`, the emitted directives are
NOT search-path-first with kind `dynamic`; the code emits the link-lib
directive first and uses kind `dylib` (lib.rs lines 181-186). -/
theorem search_directive_not_first_kind_not_dynamic :
    (try_build false cSharedCfg "example" envOk (.ok okRun)).2 = .ok () ∧
    (try_build false cSharedCfg "example" envOk (.ok okRun)).1 ≠
      ["cargo:rustc-link-search=native=/tmp/out",
       "cargo:rustc-link-lib=dynamic=example"] ∧
    (try_build false cSharedCfg "example" envOk (.ok okRun)).1 =
      ["cargo:rustc-link-lib=dylib=example",
       "cargo:rustc-link-search=native=/tmp/out"] := by
  refine ⟨rfl, by decide, rfl⟩

/-- Claim C2 (amended): on every successful invocation with `cargo_metadata`
enabled exactly two directives are emitted, in this order: first the link
directive `cargo:rustc-link-lib={kind}={output_name}`, then the search-path
directive `cargo:rustc-link-search=native={out_dir}`, where kind is `static`
when build_mode is CArchive and `dylib` when build_mode is CShared. -/
theorem metadata_directives_exact_order_and_kind :
    link_kind .CArchive = "static" ∧
    link_kind .CShared = "dylib" ∧
    (∀ (win : Bool) (b : Build) (output : String) (env : List (String × String))
       (po : ProcessOutput) (g a d : String),
      goos_from_env env = .ok g → goarch_from_env env = .ok a →
      resolve_out_dir b env = .ok d → b.cargo_metadata = true →
      po.status.success = true →
      (try_build win b output env (.ok po)).1 =
        ["cargo:rustc-link-lib=" ++ link_kind b.build_mode ++ "=" ++ output,
         "cargo:rustc-link-search=native=" ++ d] ∧
      (try_build win b output env (.ok po)).2 = .ok ()) := by
  refine ⟨rfl, rfl, ?_⟩
  intro win b output env po g a d hg ha hd hm hs
  rw [try_build_env_ok win b output env _ g a d hg ha hd]
  constructor
  · rw [run_phase_ok_fst, hm]
    simp
  · simp [run_phase, hs]

/-- Witness for C2 (amended): the concrete CShared run emits exactly the two
directives in link-lib-first order with kind `dylib`. -/
theorem metadata_directives_exact_order_and_kind_witness :
    (try_build false cSharedCfg "example" envOk (.ok okRun)).1 =
      ["cargo:rustc-link-lib=" ++ link_kind cSharedCfg.build_mode ++ "=" ++ "example",
       "cargo:rustc-link-search=native=" ++ "/tmp/out"] ∧
    (try_build false cSharedCfg "example" envOk (.ok okRun)).2 = .ok () :=
  metadata_directives_exact_order_and_kind.2.2 false cSharedCfg "example" envOk
    okRun "linux" "amd64" "/tmp/out" rfl rfl rfl rfl rfl

/-! ### Error-kind helpers and string-token fusion lemmas -/

theorem get_env_var_error_kind (env : List (String × String)) (key : String)
    (e : Error) (h : get_env_var env key = .error e) : e.kind = .EnvVarNotFound := by
  unfold get_env_var at h
  cases hl : env.lookup key with
  | none =>
    rw [hl] at h
    injection h with h2
    rw [← h2]
  | some v =>
    rw [hl] at h
    exact Except.noConfusion h

theorem resolve_out_dir_error_kind (b : Build) (env : List (String × String))
    (e : Error) (h : resolve_out_dir b env = .error e) : e.kind = .EnvVarNotFound := by
  unfold resolve_out_dir at h
  cases hb : b.out_dir with
  | some d =>
    rw [hb] at h
    exact Except.noConfusion h
  | none =>
    rw [hb] at h
    exact get_env_var_error_kind env "OUT_DIR" e h

theorem fuse_stdout_tokens (t : String) :
    ("\n=== " : String) ++ ("stdout" ++ (":\n" ++ t)) = "\n=== stdout:\n" ++ t := by
  rw [← String.append_assoc, ← String.append_assoc]
  simp

theorem fuse_stderr_tokens (t : String) :
    ("\n=== " : String) ++ ("stderr" ++ (":\n" ++ t)) = "\n=== stderr:\n" ++ t := by
  rw [← String.append_assoc, ← String.append_assoc]
  simp

/-- Claim C4: `try_build` returns a ToolExecError in exactly two cases. On
spawn failure the message wraps the spawn error's description; on nonzero
exit the message is the header naming the exit status, then a stdout section
only if the trimmed stdout is non-empty, then a stderr section under the same
rule, each holding the trimmed content verbatim. Conversely, a ToolExecError
is returned only when the process failed to spawn or exited nonzero. -/
theorem tool_exec_error_exactly_two_cases :
    (∀ (win : Bool) (b : Build) (output : String) (env : List (String × String))
       (g a d err : String),
      goos_from_env env = .ok g → goarch_from_env env = .ok a →
      resolve_out_dir b env = .ok d →
      (try_build win b output env (.error err)).2 =
        .error ⟨.ToolExecError, "failed to execute go command: " ++ err⟩) ∧
    (∀ (win : Bool) (b : Build) (output : String) (env : List (String × String))
       (g a d : String) (po : ProcessOutput),
      goos_from_env env = .ok g → goarch_from_env env = .ok a →
      resolve_out_dir b env = .ok d → po.status.success = false →
      (try_build win b output env (.ok po)).2 =
        .error ⟨.ToolExecError,
          "failed to build Go library (" ++ po.status.display ++ "). Build output:"
          ++ (if string_trim po.stdout = "" then ""
              else "\n=== stdout:\n" ++ string_trim po.stdout)
          ++ (if string_trim po.stderr = "" then ""
              else "\n=== stderr:\n" ++ string_trim po.stderr)⟩) ∧
    (∀ (win : Bool) (b : Build) (output : String) (env : List (String × String))
       (run : Except String ProcessOutput) (e : Error),
      (try_build win b output env run).2 = .error e → e.kind = .ToolExecError →
      (∃ err, run = .error err) ∨ (∃ po, run = .ok po ∧ po.status.success = false)) := by
  refine ⟨?_, ?_, ?_⟩
  · intro win b output env g a d err hg ha hd
    rw [try_build_env_ok win b output env _ g a d hg ha hd, run_phase_spawn_error]
  · intro win b output env g a d po hg ha hd hs
    have s1 : ∀ x : String, ("). Build output:" : String) ++ ("\n=== stdout:\n" ++ x) =
        "). Build output:\n=== stdout:\n" ++ x := by
      intro x
      rw [← String.append_assoc]
      simp
    have s2 : ∀ x : String, ("). Build output:" : String) ++ ("\n=== stderr:\n" ++ x) =
        "). Build output:\n=== stderr:\n" ++ x := by
      intro x
      rw [← String.append_assoc]
      simp
    rw [try_build_env_ok win b output env _ g a d hg ha hd]
    by_cases h1 : string_trim po.stdout = "" <;> by_cases h2 : string_trim po.stderr = "" <;>
      simp [run_phase, hs, push_output, h1, h2, String.append_assoc,
            String.append_empty, fuse_stdout_tokens, fuse_stderr_tokens, s1, s2]
  · intro win b output env run e he hk
    cases hg : goos_from_env env with
    | error e2 =>
      rw [try_build_goos_error win b output env run e2 hg] at he
      replace he : Except.error e2 = Except.error e := he
      have hee : e2 = e := Except.error.inj he
      rcases goos_from_env_error_kind env e2 hg with h2 | h2 <;>
        rw [hee, hk] at h2 <;> exact absurd h2 (by decide)
    | ok g =>
      cases ha : goarch_from_env env with
      | error e2 =>
        rw [try_build_goarch_error win b output env run g e2 hg ha] at he
        replace he : Except.error e2 = Except.error e := he
        have hee : e2 = e := Except.error.inj he
        rcases goarch_from_env_error_kind env e2 ha with h2 | h2 <;>
          rw [hee, hk] at h2 <;> exact absurd h2 (by decide)
      | ok a =>
        cases hd : resolve_out_dir b env with
        | error e2 =>
          rw [try_build_out_dir_error win b output env run g a e2 hg ha hd] at he
          replace he : Except.error e2 = Except.error e := he
          have hee : e2 = e := Except.error.inj he
          have h2 := resolve_out_dir_error_kind b env e2 hd
          rw [hee, hk] at h2
          exact absurd h2 (by decide)
        | ok d =>
          rw [try_build_env_ok win b output env run g a d hg ha hd] at he
          cases run with
          | error err => exact Or.inl ⟨err, rfl⟩
          | ok po =>
            cases hs : po.status.success with
            | false => exact Or.inr ⟨po, rfl, hs⟩
            | true =>
              have hok : (run_phase b output d (.ok po)).2 = .ok () := by
                simp [run_phase, hs]
              rw [hok] at he
              exact Except.noConfusion he

/-- Witness for C4: a concrete spawn failure wraps the OS error text; the
spec's example (exit status 1, stdout `compile error: x.go:3`, empty stderr)
yields the header plus a stdout section and no stderr section; and a
ToolExecError implies spawn failure or nonzero exit at a concrete input. -/
theorem tool_exec_error_exactly_two_cases_witness :
    (try_build false Build.new "example" envOk
        (.error "No such file or directory (os error 2)")).2 =
      .error ⟨.ToolExecError,
        "failed to execute go command: " ++ "No such file or directory (os error 2)"⟩ ∧
    (try_build false Build.new "example" envOk
        (.ok ⟨⟨false, "exit status: 1"⟩, "compile error: x.go:3", ""⟩)).2 =
      .error ⟨.ToolExecError,
        "failed to build Go library (" ++ "exit status: 1" ++ "). Build output:"
        ++ (if string_trim "compile error: x.go:3" = "" then ""
            else "\n=== stdout:\n" ++ string_trim "compile error: x.go:3")
        ++ (if string_trim "" = "" then ""
            else "\n=== stderr:\n" ++ string_trim "")⟩ ∧
    ((∃ err, (Except.error "boom" : Except String ProcessOutput) = .error err) ∨
      (∃ po, (Except.error "boom" : Except String ProcessOutput) = .ok po ∧
        po.status.success = false)) := by
  refine ⟨?_, ?_, ?_⟩
  · exact tool_exec_error_exactly_two_cases.1 false Build.new "example" envOk
      "linux" "amd64" "/tmp/out" "No such file or directory (os error 2)" rfl rfl rfl
  · exact tool_exec_error_exactly_two_cases.2.1 false Build.new "example" envOk
      "linux" "amd64" "/tmp/out" ⟨⟨false, "exit status: 1"⟩, "compile error: x.go:3", ""⟩
      rfl rfl rfl rfl
  · exact tool_exec_error_exactly_two_cases.2.2 false Build.new "example" envOk
      (.error "boom") ⟨.ToolExecError, "failed to execute go command: " ++ "boom"⟩
      rfl rfl

/-- Counterexample to C6 as stated: with the required variable
`CARGO_CFG_TARGET_ARCH` absent but `CARGO_CFG_TARGET_OS` present and
unrecognized, the failure kind is InvalidGOOS, not EnvVarNotFound, and the
message does not name the absent architecture key — the OS variable is read
and validated before the architecture variable. -/
theorem arch_absent_but_invalid_goos_reported :
    List.lookup "CARGO_CFG_TARGET_ARCH" [("CARGO_CFG_TARGET_OS", "plan9")] = none ∧
    (try_build false Build.new "example" [("CARGO_CFG_TARGET_OS", "plan9")]
        (.ok okRun)).2 =
      .error ⟨.InvalidGOOS, "unexpected target os " ++ "plan9"⟩ :=
  ⟨rfl, rfl⟩

/-- Claim C6 (amended): the target-OS and target-architecture variables are
both required regardless of configuration (success implies both were
present), and the default-output-directory variable is consulted only when no
explicit out_dir was configured. Absence of a required variable yields
EnvVarNotFound naming the missing key, provided no variable read earlier
already failed: the OS variable is read and validated first, so absence of
`CARGO_CFG_TARGET_ARCH` is reported (with its key in the message) only when
the OS value is present and recognized, and absence of `OUT_DIR` neither is
consulted nor causes a failure when out_dir was set explicitly. -/
theorem env_vars_required_and_out_dir_conditional :
    (∀ (win : Bool) (b : Build) (output : String) (env : List (String × String))
       (run : Except String ProcessOutput) (u : Unit),
      (try_build win b output env run).2 = .ok u →
      (∃ so, env.lookup "CARGO_CFG_TARGET_OS" = some so) ∧
      (∃ sa, env.lookup "CARGO_CFG_TARGET_ARCH" = some sa)) ∧
    (∀ (win : Bool) (b : Build) (output : String) (env : List (String × String))
       (run : Except String ProcessOutput),
      env.lookup "CARGO_CFG_TARGET_OS" = none →
      (try_build win b output env run).2 =
        .error ⟨.EnvVarNotFound,
                "could not find environment variable " ++ "CARGO_CFG_TARGET_OS"⟩) ∧
    (∀ (win : Bool) (b : Build) (output : String) (env : List (String × String))
       (run : Except String ProcessOutput) (g : String),
      goos_from_env env = .ok g →
      env.lookup "CARGO_CFG_TARGET_ARCH" = none →
      (try_build win b output env run).2 =
        .error ⟨.EnvVarNotFound,
                "could not find environment variable " ++ "CARGO_CFG_TARGET_ARCH"⟩) ∧
    (∀ (win : Bool) (b : Build) (output : String) (env : List (String × String))
       (run : Except String ProcessOutput) (g a : String),
      goos_from_env env = .ok g → goarch_from_env env = .ok a →
      b.out_dir = none → env.lookup "OUT_DIR" = none →
      (try_build win b output env run).2 =
        .error ⟨.EnvVarNotFound,
                "could not find environment variable " ++ "OUT_DIR"⟩) ∧
    (∀ (win : Bool) (b : Build) (output : String) (env : List (String × String))
       (po : ProcessOutput) (g a d : String),
      goos_from_env env = .ok g → goarch_from_env env = .ok a →
      b.out_dir = some d → env.lookup "OUT_DIR" = none →
      po.status.success = true →
      (try_build win b output env (.ok po)).2 = .ok ()) := by
  refine ⟨?_, ?_, ?_, ?_, ?_⟩
  · intro win b output env run u hu
    cases hg : goos_from_env env with
    | error e =>
      rw [try_build_goos_error win b output env run e hg] at hu
      replace hu : Except.error e = Except.ok u := hu
      exact Except.noConfusion hu
    | ok g =>
      cases ha : goarch_from_env env with
      | error e =>
        rw [try_build_goarch_error win b output env run g e hg ha] at hu
        replace hu : Except.error e = Except.ok u := hu
        exact Except.noConfusion hu
      | ok a =>
        obtain ⟨so, hso, _⟩ := goos_from_env_ok_mem env g hg
        obtain ⟨sa, hsa, _⟩ := goarch_from_env_ok_mem env a ha
        exact ⟨⟨so, hso⟩, ⟨sa, hsa⟩⟩
  · intro win b output env run hos
    rw [try_build_goos_error win b output env run _ (goos_from_env_absent env hos)]
  · intro win b output env run g hg harch
    rw [try_build_goarch_error win b output env run g _ hg
      (goarch_from_env_absent env harch)]
  · intro win b output env run g a hg ha hb hod
    have hd : resolve_out_dir b env =
        .error ⟨.EnvVarNotFound,
                "could not find environment variable " ++ "OUT_DIR"⟩ := by
      simp only [resolve_out_dir, hb, get_env_var, hod]
    rw [try_build_out_dir_error win b output env run g a _ hg ha hd]
  · intro win b output env po g a d hg ha hb _hod hs
    have hd : resolve_out_dir b env = .ok d := by
      simp only [resolve_out_dir, hb]
    rw [try_build_env_ok win b output env _ g a d hg ha hd]
    simp [run_phase, hs]

/-- Witness for C6 (amended): concrete instances — a missing OS variable, a
missing architecture variable with a valid OS, a missing OUT_DIR with no
explicit out_dir, and a successful run with an explicit out_dir and no
OUT_DIR in the environment. -/
theorem env_vars_required_and_out_dir_conditional_witness :
    (try_build false Build.new "example" [] (.ok okRun)).2 =
      .error ⟨.EnvVarNotFound,
              "could not find environment variable " ++ "CARGO_CFG_TARGET_OS"⟩ ∧
    (try_build false Build.new "example" [("CARGO_CFG_TARGET_OS", "linux")]
        (.ok okRun)).2 =
      .error ⟨.EnvVarNotFound,
              "could not find environment variable " ++ "CARGO_CFG_TARGET_ARCH"⟩ ∧
    (try_build false Build.new "example"
        [("CARGO_CFG_TARGET_OS", "linux"), ("CARGO_CFG_TARGET_ARCH", "x86_64")]
        (.ok okRun)).2 =
      .error ⟨.EnvVarNotFound,
              "could not find environment variable " ++ "OUT_DIR"⟩ ∧
    (try_build false cSharedCfg "example"
        [("CARGO_CFG_TARGET_OS", "linux"), ("CARGO_CFG_TARGET_ARCH", "x86_64")]
        (.ok okRun)).2 = .ok () := by
  refine ⟨?_, ?_, ?_, ?_⟩
  · exact env_vars_required_and_out_dir_conditional.2.1 false Build.new "example"
      [] (.ok okRun) rfl
  · exact env_vars_required_and_out_dir_conditional.2.2.1 false Build.new "example"
      [("CARGO_CFG_TARGET_OS", "linux")] (.ok okRun) "linux" rfl rfl
  · exact env_vars_required_and_out_dir_conditional.2.2.2.1 false Build.new "example"
      [("CARGO_CFG_TARGET_OS", "linux"), ("CARGO_CFG_TARGET_ARCH", "x86_64")]
      (.ok okRun) "linux" "amd64" rfl rfl rfl rfl
  · exact env_vars_required_and_out_dir_conditional.2.2.2.2 false cSharedCfg "example"
      [("CARGO_CFG_TARGET_OS", "linux"), ("CARGO_CFG_TARGET_ARCH", "x86_64")]
      okRun "linux" "amd64" "/tmp/out" rfl rfl rfl rfl rfl
